import Mathlib

set_option linter.unusedSectionVars false

/-!
Verification of the DMI-scrapbook TikTok live-stream monitor
(`tiktoklive_monitor.py`): a shallow embedding of the monitor's data model
and operations, with theorems about the stability tracker, the disconnect
confirmation subsystem, the recording orchestrator, the configuration
watcher and initialization.

Conventions of the embedding:
* timestamps are integers counted in seconds (`datetime.now()` becomes an
  `Int` parameter threaded through the state-changing operations;
  `timedelta(minutes=10)` becomes `600`);
* the Python dictionaries keyed by username (`stream_stability`,
  `active_recordings`, `pending_disconnects`) become association lists;
* `asyncio` tasks become entries in a task registry carried by the monitor
  state, so that cancellation is observable;
* file handles carry a ghost counter `closeCount` recording how many times
  `close()` has been invoked on them, so that "closed at most once" is a
  statement about the state.
-/

namespace DMI

/-! ## Association-list helpers

The Python dictionaries of the monitor are modelled as association lists.
`setKey` is dictionary assignment (replace the binding if the key is
present, append otherwise), `removeKey` is `del`, `getKey` is lookup and
`hasKey` is the `in` test. -/

def getKey {κ α : Type} [BEq κ] (k : κ) : List (κ × α) → Option α
  | [] => none
  | p :: l => if p.1 == k then some p.2 else getKey k l

def hasKey {κ α : Type} [BEq κ] (k : κ) : List (κ × α) → Bool
  | [] => false
  | p :: l => p.1 == k || hasKey k l

def setKey {κ α : Type} [BEq κ] (k : κ) (v : α) : List (κ × α) → List (κ × α)
  | [] => [(k, v)]
  | p :: l => if p.1 == k then (k, v) :: l else p :: setKey k v l

def removeKey {κ α : Type} [BEq κ] (k : κ) : List (κ × α) → List (κ × α)
  | [] => []
  | p :: l => if p.1 == k then removeKey k l else p :: removeKey k l

/-- The keys of an association list are pairwise distinct (the invariant a
Python dictionary enjoys by construction). -/
def keysNodup {κ α : Type} (l : List (κ × α)) : Prop :=
  (l.map Prod.fst).Nodup

/-! ## Stability tracker (`track_stream_stability`, lines 109-173)

`StabilityState` is the per-entity record stored in
`self.stream_stability[username]`. -/

structure StabilityState where
  /-- `recent_checks`: the (timestamp, observed-live) samples of the last
  ten minutes. -/
  recent_checks : List (Int × Bool)
  /-- `last_action_time`: timestamp of the last confirmed action. -/
  last_action_time : Int
  consecutive_live : Nat
  consecutive_offline : Nat
  /-- `last_status`: the previous raw observation (`None` before the first
  sample). -/
  last_status : Option Bool
  deriving Repr, DecidableEq

/-- The record created on an entity's first observation
(`tiktoklive_monitor.py` lines 111-118): the last-action timestamp is set
ten minutes (600 seconds) in the past to allow an immediate first action. -/
def freshStability (now : Int) : StabilityState :=
  { recent_checks := []
    last_action_time := now - 600
    consecutive_live := 0
    consecutive_offline := 0
    last_status := none }

/-- The consecutive-counter update of lines 132-146: a run of identical
observations increments its counter and zeroes the other; a flip (or a
first observation) resets to 1. Returns
`(consecutive_live, consecutive_offline)`. -/
def updateCounters (st : StabilityState) (is_live : Bool) : Nat × Nat :=
  if is_live then
    if st.last_status = some true then (st.consecutive_live + 1, 0)
    else (1, 0)
  else
    if st.last_status = some false then (0, st.consecutive_offline + 1)
    else (0, 1)

/-- `track_stream_stability(username, is_live)` (lines 109-173), for one
entity.  `prev` is the stored stability record (`none` if the entity is
observed for the first time), `current_recording` is
`username in self.active_recordings`, `threshold` is
`self.stability_threshold` and `cooldown` is `self.min_action_cooldown`.
Returns the updated record and the confirmed-live signal.

Confirmation to LIVE fires only when the entity is live, not currently
recording, `consecutive_live` has reached the threshold and the cooldown
since the last action has elapsed; firing updates `last_action_time`.
The poll-driven confirmation to OFFLINE was removed from the source
(lines 170-173): every non-fire path returns `false`. -/
def trackStreamStability (prev : Option StabilityState) (now : Int)
    (is_live : Bool) (current_recording : Bool) (threshold cooldown : Nat) :
    StabilityState × Bool :=
  let st0 := prev.getD (freshStability now)
  let checks :=
    (st0.recent_checks.filter (fun c => now - c.1 < 600)) ++ [(now, is_live)]
  let cnts := updateCounters st0 is_live
  let st1 : StabilityState :=
    { recent_checks := checks
      last_action_time := st0.last_action_time
      consecutive_live := cnts.1
      consecutive_offline := cnts.2
      last_status := some is_live }
  if is_live && !current_recording then
    if threshold ≤ st1.consecutive_live then
      if (cooldown : Int) ≤ now - st1.last_action_time then
        ({ st1 with last_action_time := now }, true)
      else (st1, false)
    else (st1, false)
  else (st1, false)

/-- Feed a list of `(timestamp, is_live)` samples of one entity through the
stability tracker with the recording flag held fixed at `false`: the
tracker in isolation, as exercised by the testable properties of the spec.
Returns the final record and the list of confirmed-live signals. -/
def trackRun (threshold cooldown : Nat) :
    Option StabilityState → List (Int × Bool) → Option StabilityState × List Bool
  | prev, [] => (prev, [])
  | prev, s :: rest =>
    let r := trackStreamStability prev s.1 s.2 false threshold cooldown
    let rr := trackRun threshold cooldown (some r.1) rest
    (rr.1, r.2 :: rr.2)

/-! ## Configuration (`load_config`, lines 372-421) -/

/-- One entry of the `"streamers"` block of the configuration file. -/
structure StreamerConfig where
  username : String
  enabled : Bool
  session_id : Option String
  tt_target_idc : Option String
  tags : List String
  notes : String
  deriving Repr, DecidableEq

/-- The `"settings"` block of the configuration file. -/
structure Settings where
  check_interval_seconds : Nat
  max_concurrent_recordings : Nat
  output_directory : String
  session_id : Option String
  tt_target_idc : Option String
  whitelist_sign_server : String
  stability_threshold : Nat
  min_action_cooldown_seconds : Nat
  disconnect_confirmation_delay_seconds : Nat
  individual_check_timeout : Nat
  max_retries : Nat
  deriving Repr, DecidableEq

structure Config where
  streamers : List (String × StreamerConfig)
  settings : Settings
  deriving Repr, DecidableEq

/-- The documented default configuration written by `load_config` when the
configuration file is missing (lines 374-406). -/
def defaultConfig : Config :=
  { streamers :=
      [ ("example_user1",
          { username := "@example_user1", enabled := true, session_id := none
            tt_target_idc := none, tags := ["research", "category1"]
            notes := "Example streamer for research" })
      , ("example_user2",
          { username := "@example_user2", enabled := true, session_id := none
            tt_target_idc := none, tags := ["research", "category2"]
            notes := "Another example streamer" }) ]
    settings :=
      { check_interval_seconds := 60
        max_concurrent_recordings := 5
        output_directory := "recordings"
        session_id := none
        tt_target_idc := some "us-eastred"
        whitelist_sign_server := "tiktok.eulerstream.com"
        stability_threshold := 3
        min_action_cooldown_seconds := 90
        disconnect_confirmation_delay_seconds := 30
        individual_check_timeout := 20
        max_retries := 2 } }

/-- The state of the configuration file on disk, as `load_config` can find
it: absent, present but unparseable, or present with a parsed value. -/
inductive ConfigSource where
  | missing
  | invalid
  | valid (c : Config)
  deriving Repr, DecidableEq

/-- An exception escaping `load_config`: the `AttributeError` raised when
one of its branches uses `self.logger` before `__init__` has assigned it
(the logger is created on line 64, after `load_config` has already run on
line 27). -/
inductive ConfigError where
  | loggerNotAssigned
  deriving Repr, DecidableEq

/-- `load_config` (lines 372-421), with `loggerReady` recording whether
`self.logger` has been assigned yet: `__init__` calls `load_config` on
line 27, before the logger is set up on line 64, while
`check_config_changes` calls it again at reload time, when the logger
exists.  A readable file is parsed and returned.  An unreadable file logs
an error and returns the default — at initialization time the
`self.logger.error` call of line 414 itself raises `AttributeError`.  A
missing file is first created on disk with the documented default
(lines 418-419); the `self.logger.info` call of line 420 then raises
`AttributeError` at initialization time, so the default is returned only
when the logger is ready.  The second component is the state of the file
on disk afterwards. -/
def loadConfig (loggerReady : Bool) :
    ConfigSource → Except ConfigError Config × ConfigSource
  | ConfigSource.missing =>
    if loggerReady then
      (Except.ok defaultConfig, ConfigSource.valid defaultConfig)
    else
      (Except.error ConfigError.loggerNotAssigned, ConfigSource.valid defaultConfig)
  | ConfigSource.invalid =>
    if loggerReady then (Except.ok defaultConfig, ConfigSource.invalid)
    else (Except.error ConfigError.loggerNotAssigned, ConfigSource.invalid)
  | ConfigSource.valid c => (Except.ok c, ConfigSource.valid c)

/-! ## Recording sessions and monitor state -/

/-- A CSV sink file handle.  `closeCount` is a ghost counter recording how
many times `close()` has been invoked on this handle; the Python
`file_handle.closed` flag is `closed`. -/
structure FileHandle where
  closed : Bool
  closeCount : Nat
  deriving Repr, DecidableEq

/-- `close()` as guarded by `stop_recording` (lines 955-963): the handle is
closed only if it is not closed already. -/
def closeHandle (h : FileHandle) : FileHandle :=
  if h.closed then h else { closed := true, closeCount := h.closeCount + 1 }

/-- Closing every sink of a session's `csv_writers` map (lines 953-963). -/
def closeWriters (ws : List (String × FileHandle)) : List (String × FileHandle) :=
  ws.map (fun p => (p.1, closeHandle p.2))

/-- The per-kind event counters of `recording_info['stats']` (line 620). -/
structure SessionStats where
  comments : Nat
  gifts : Nat
  follows : Nat
  shares : Nat
  joins : Nat
  likes : Nat
  deriving Repr, DecidableEq

def SessionStats.zero : SessionStats :=
  { comments := 0, gifts := 0, follows := 0, shares := 0, joins := 0, likes := 0 }

/-- `recording_info` (lines 615-622): one active recording session. -/
structure RecordingSession where
  start_time : Int
  csv_writers : List (String × FileHandle)
  stats : SessionStats
  is_recording : Bool
  deriving Repr, DecidableEq

/-- The freshly opened sinks of `init_csv_files_with_handles`
(lines 650-687): one open handle per event kind. -/
def freshWriters : List (String × FileHandle) :=
  [ ("comments", { closed := false, closeCount := 0 })
  , ("gifts", { closed := false, closeCount := 0 })
  , ("follows", { closed := false, closeCount := 0 })
  , ("shares", { closed := false, closeCount := 0 })
  , ("joins", { closed := false, closeCount := 0 })
  , ("likes", { closed := false, closeCount := 0 }) ]

/-- The status of an `asyncio` task in the task registry. -/
inductive TaskStatus where
  | running
  | cancelled
  deriving Repr, DecidableEq

/-- `self.pending_disconnects[username]` (lines 732-736): the timestamp the
disconnect signal arrived and the handle (registry id) of the confirmation
task. -/
structure PendingDisconnect where
  timestamp : Int
  taskId : Nat
  deriving Repr, DecidableEq

/-- The log records the operations emit, restricted to the ones the
verified properties are about. -/
inductive LogEvent where
  /-- `logger.warning("Already recording ...")` (line 558). -/
  | warnAlreadyRecording (username : String)
  /-- `log_session_event(..., 'recording_attempt', 'failed', ...)` on a
  reached concurrency cap (lines 562-564). -/
  | admissionFailure (username : String)
  /-- `log_session_event(..., 'recording_started', 'failed', ...)`
  (lines 647-648). -/
  | startFailed (username : String)
  /-- `log_session_event(..., 'recording_started', 'success')` (line 631). -/
  | recordingStarted (username : String)
  /-- `logger.warning("No active recording found ...")` (line 893). -/
  | warnNoActiveRecording (username : String)
  /-- `log_session_event(..., 'recording_stopped_{reason}', ...)`
  (lines 968-974). -/
  | recordingStopped (username : String) (reason : String)
  /-- `logger.info("... back online after disconnect ...")` (line 188). -/
  | backOnline (username : String)
  /-- `logger.info("... stream ended (LiveEndEvent received)")` (line 719). -/
  | streamEnded (username : String)
  /-- `logger.info("Disconnect event received ...")` (line 729). -/
  | disconnectSignal (username : String)
  /-- A streamer's enabled flag changed on a config reload (lines 343-348);
  logged, with the new flag value. -/
  | statusChanged (streamer_key : String) (enabled : Bool)
  deriving Repr, DecidableEq

/-- `True` exactly on the log record of a stopped recording; the polling
loop is proved never to emit such a record. -/
def LogEvent.isStop : LogEvent → Bool
  | LogEvent.recordingStopped _ _ => true
  | _ => false

/-- The mutable state of `StreamMonitor`: the configuration, the
command-line session-id override, the three username-keyed dictionaries,
the task registry for pending disconnect confirmations, and the cached
stability settings (lines 24-41). -/
structure MonitorState where
  config : Config
  global_session_id : Option String
  active_recordings : List (String × RecordingSession)
  pending_disconnects : List (String × PendingDisconnect)
  stream_stability : List (String × StabilityState)
  tasks : List (Nat × TaskStatus)
  next_task_id : Nat
  stability_threshold : Nat
  min_action_cooldown : Nat
  disconnect_confirmation_delay : Nat
  deriving Repr, DecidableEq

/-- `StreamMonitor.__init__` (lines 24-107): load (or create) the
configuration — with `self.logger` not yet assigned — then apply the
command-line session-id override, cache the stability settings and start
with empty recording / pending / stability maps.  An exception escaping
`load_config` aborts construction.  Returns the construction outcome and
the configuration file's state on disk after loading. -/
def initMonitor (file : ConfigSource) (cliSessionId : Option String) :
    Except ConfigError MonitorState × ConfigSource :=
  let lc := loadConfig false file
  match lc.1 with
  | Except.error e => (Except.error e, lc.2)
  | Except.ok c0 =>
    let cfg :=
      match cliSessionId with
      | some sid =>
          { c0 with settings := { c0.settings with session_id := some sid } }
      | none => c0
    (Except.ok
      { config := cfg
        global_session_id := cliSessionId
        active_recordings := []
        pending_disconnects := []
        stream_stability := []
        tasks := []
        next_task_id := 0
        stability_threshold := cfg.settings.stability_threshold
        min_action_cooldown := cfg.settings.min_action_cooldown_seconds
        disconnect_confirmation_delay := cfg.settings.disconnect_confirmation_delay_seconds },
     lc.2)

/-- The monitor-construction part of `main` (lines 1274-1286): an
exception escaping the `StreamMonitor` constructor is caught, a
diagnostic is printed and the process exits with code 1; on success the
monitor runs (no exit code). -/
def mainInitExit (file : ConfigSource) (cliSessionId : Option String) :
    Option Nat :=
  match (initMonitor file cliSessionId).1 with
  | Except.error _ => some 1
  | Except.ok _ => none

/-! ## Recording orchestrator (`start_recording` / `stop_recording`) -/

/-- Mark task `i` of the registry as cancelled (`task.cancel()`). -/
def cancelTask (i : Nat) (ts : List (Nat × TaskStatus)) : List (Nat × TaskStatus) :=
  ts.map (fun p => if p.1 == i then (p.1, TaskStatus.cancelled) else p)

/-- `start_recording(username)` (lines 555-648).  Admission control first:
a start is rejected with a warning if a session for the entity already
exists (lines 557-559), and rejected with an admission-failure summary
record if the number of active sessions has reached
`max_concurrent_recordings` (lines 561-565).  On admission the client is
created, the CSV sinks are opened and the client started; `startOk`
abstracts whether this fallible middle part succeeds.  On success the
session is stored in `active_recordings` (line 629); on failure the
partially opened sinks are closed again and a failed-start summary record
is emitted (lines 634-648), leaving the active set unchanged. -/
def startRecording (st : MonitorState) (username : String) (now : Int)
    (startOk : Bool) : MonitorState × List LogEvent :=
  if hasKey username st.active_recordings then
    (st, [LogEvent.warnAlreadyRecording username])
  else if st.config.settings.max_concurrent_recordings ≤ st.active_recordings.length then
    (st, [LogEvent.admissionFailure username])
  else if startOk then
    ({ st with
        active_recordings :=
          st.active_recordings ++
            [(username,
              { start_time := now
                csv_writers := freshWriters
                stats := SessionStats.zero
                is_recording := true })] },
     [LogEvent.recordingStarted username])
  else
    (st, [LogEvent.startFailed username])

/-- `stop_recording(username, reason)` (lines 890-984).  A call for an
entity with no active session only logs a warning (lines 892-894).
Otherwise: a pending disconnect confirmation is cancelled — `cancel()` is
called on its task — and its record removed (lines 896-903); the session's
`is_recording` flag is flipped off, every sink handle is closed if not
closed already, the `csv_writers` map is cleared to prevent double-closing
(lines 911-965), the summary record is emitted (lines 967-974) and the
session is removed from the active set (lines 981-984).

The third component of the result is the session's file handles as they
stand after this call's closing step (the Python file objects outlive the
cleared `csv_writers` dictionary); it is `[]` when no teardown ran. -/
def stopRecording (st : MonitorState) (username : String) (reason : String) :
    MonitorState × List LogEvent × List (String × FileHandle) :=
  match getKey username st.active_recordings with
  | none => (st, [LogEvent.warnNoActiveRecording username], [])
  | some sess =>
    let st1 :=
      match getKey username st.pending_disconnects with
      | some pd =>
        { st with
            tasks := cancelTask pd.taskId st.tasks
            pending_disconnects := removeKey username st.pending_disconnects }
      | none => st
    let closed := closeWriters sess.csv_writers
    ({ st1 with
        active_recordings := removeKey username st1.active_recordings },
     [LogEvent.recordingStopped username reason],
     closed)

/-! ## Disconnect confirmation subsystem -/

/-- The `DisconnectEvent` handler `on_disconnect` (lines 727-737): if no
confirmation is pending for the entity, record a `PendingDisconnect`
stamped `now` and spawn the confirmation task (a fresh entry of the task
registry); a second disconnect signal while one is pending changes
nothing. -/
def onDisconnect (st : MonitorState) (now : Int) (username : String) :
    MonitorState × List LogEvent :=
  if hasKey username st.pending_disconnects then
    (st, [LogEvent.disconnectSignal username])
  else
    ({ st with
        pending_disconnects :=
          st.pending_disconnects ++
            [(username, { timestamp := now, taskId := st.next_task_id })]
        tasks := st.tasks ++ [(st.next_task_id, TaskStatus.running)]
        next_task_id := st.next_task_id + 1 },
     [LogEvent.disconnectSignal username])

/-- The `LiveEndEvent` handler `on_live_end` (lines 717-725): on the
authoritative end-of-broadcast signal the pending-disconnect record, if
any, is deleted (only the dictionary entry — the handler does not touch
the task itself), and the recording is stopped immediately with reason
`"live_end_event"`. -/
def onLiveEnd (st : MonitorState) (username : String) :
    MonitorState × List LogEvent :=
  let st1 :=
    if hasKey username st.pending_disconnects then
      { st with pending_disconnects := removeKey username st.pending_disconnects }
    else st
  let r := stopRecording st1 username "live_end_event"
  (r.1, LogEvent.streamEnded username :: r.2.1)

/-- The body of `handle_disconnect_confirmation` (lines 175-196) after the
grace-period sleep (`disconnect_confirmation_delay`) has elapsed.  If the
entity still has both a pending record and an active session, a fresh
probe (`check_streamer_status`) decides: still offline (`some false`)
stops the recording with reason `"disconnect_confirmed"`; live again
(`some true`) keeps the session and only logs the reconnection; a probe
that raises (`none`) stops with reason `"disconnect_error"`.  Finally the
pending record, if still present, is removed (lines 194-196). -/
def handleDisconnectConfirmation (st : MonitorState) (username : String)
    (probe : Option Bool) : MonitorState × List LogEvent :=
  let step :=
    if hasKey username st.pending_disconnects &&
       hasKey username st.active_recordings then
      match probe with
      | some false =>
        let r := stopRecording st username "disconnect_confirmed"
        (r.1, r.2.1)
      | some true => (st, [LogEvent.backOnline username])
      | none =>
        let r := stopRecording st username "disconnect_error"
        (r.1, r.2.1)
    else (st, ([] : List LogEvent))
  let st1 := step.1
  (if hasKey username st1.pending_disconnects then
     { st1 with pending_disconnects := removeKey username st1.pending_disconnects }
   else st1,
   step.2)

/-! ## Monitoring loop (polling path of `monitor_streamers`) -/

/-- Processing of one entity's poll result in the monitoring loop
(lines 1046-1061): run the stability tracker; on a confirmed-live signal
for a non-recording entity, start recording (the `start_recording` task
created on line 1054 is modelled as completing before the next poll cycle
processes the entity; `startOk` abstracts its fallible middle part); the
branch for an offline poll of a recording entity deliberately does nothing
(lines 1057-1061).  Returns the new state, the tracker's confirmed-live
signal, and the emitted log records. -/
def monitorProcessResult (st : MonitorState) (now : Int) (username : String)
    (is_live : Bool) (startOk : Bool) :
    MonitorState × Bool × List LogEvent :=
  let tracked :=
    trackStreamStability (getKey username st.stream_stability) now is_live
      (hasKey username st.active_recordings)
      st.stability_threshold st.min_action_cooldown
  let st1 :=
    { st with stream_stability := setKey username tracked.1 st.stream_stability }
  if tracked.2 then
    let current_recording := hasKey username st1.active_recordings
    if is_live && !current_recording then
      let r := startRecording st1 username now startOk
      (r.1, true, r.2)
    else (st1, true, [])
  else (st1, false, [])

/-- Several consecutive poll cycles for one entity: fold
`monitorProcessResult` over a list of `(timestamp, is_live)` samples.
Returns the final state and the list of confirmed-live signals. -/
def runPoll (username : String) :
    MonitorState → List (Int × Bool) → MonitorState × List Bool
  | st, [] => (st, [])
  | st, s :: rest =>
    let step := monitorProcessResult st s.1 username s.2 true
    let r := runPoll username step.1 rest
    (r.1, step.2.1 :: r.2)

/-! ## Configuration watcher (`check_config_changes`, lines 308-370) -/

/-- The loop of lines 355-358: for each streamer key removed from the
roster, the username is reconstituted as `"@" ++ key` and, if that
username has an active recording, it is stopped with reason
`"removed_from_config"`. -/
def processRemoved : MonitorState → List String → MonitorState × List LogEvent
  | st, [] => (st, [])
  | st, k :: rest =>
    if hasKey ("@" ++ k) st.active_recordings then
      let r := stopRecording st ("@" ++ k) "removed_from_config"
      let rr := processRemoved r.1 rest
      (rr.1, r.2.1 ++ rr.2)
    else
      processRemoved st rest

/-- The reload body of `check_config_changes` (lines 312-365), run when
the file's modification time changed.  The command-line session id keeps
precedence over the reloaded value (lines 323-324); the cached stability
settings are refreshed (lines 330-332); the old and new rosters are
diffed: removed streamer keys with an active recording are stopped with
reason `"removed_from_config"` (lines 353-358), while streamers whose
enabled flag changed are only logged as status changes (lines 343-348,
359-360). -/
def checkConfigChanges (st : MonitorState) (newConfig : Config) :
    MonitorState × List LogEvent :=
  let old := st.config
  let cfg :=
    match st.global_session_id with
    | some sid =>
        { newConfig with
            settings := { newConfig.settings with session_id := some sid } }
    | none => newConfig
  let st1 :=
    { st with
        config := cfg
        stability_threshold := cfg.settings.stability_threshold
        min_action_cooldown := cfg.settings.min_action_cooldown_seconds
        disconnect_confirmation_delay := cfg.settings.disconnect_confirmation_delay_seconds }
  let removed :=
    (old.streamers.map Prod.fst).filter (fun k => !(hasKey k cfg.streamers))
  let changed :=
    (old.streamers.map Prod.fst).filter (fun k =>
      hasKey k cfg.streamers &&
      (((getKey k old.streamers).map StreamerConfig.enabled).getD true
        != ((getKey k cfg.streamers).map StreamerConfig.enabled).getD true))
  let r := processRemoved st1 removed
  (r.1,
   r.2 ++ changed.map (fun k =>
     LogEvent.statusChanged k
       (((getKey k cfg.streamers).map StreamerConfig.enabled).getD true)))

/-! ## The session-accounting invariant -/

/-- The invariant of §3 of the spec: at most one active session per entity
(the keys of `active_recordings` are pairwise distinct) and the number of
active sessions never exceeds the configured cap. -/
def SessionInvariant (st : MonitorState) : Prop :=
  keysNodup st.active_recordings ∧
  st.active_recordings.length ≤ st.config.settings.max_concurrent_recordings

/-! ## Concrete states, for evaluating the theorems on explicit inputs -/

/-- A settings block with the given stability threshold, cooldown and
concurrency cap (the other settings as in the documented default). -/
def baseSettings (threshold cooldown cap : Nat) : Settings :=
  { defaultConfig.settings with
      stability_threshold := threshold
      min_action_cooldown_seconds := cooldown
      max_concurrent_recordings := cap }

/-- A monitor state with an empty roster and the given stability
threshold, cooldown and concurrency cap: no active recording, no pending
disconnect, no stability record yet. -/
def baseState (threshold cooldown cap : Nat) : MonitorState :=
  { config := { streamers := [], settings := baseSettings threshold cooldown cap }
    global_session_id := none
    active_recordings := []
    pending_disconnects := []
    stream_stability := []
    tasks := []
    next_task_id := 0
    stability_threshold := threshold
    min_action_cooldown := cooldown
    disconnect_confirmation_delay := 30 }

/-- A sample active session with freshly opened sinks. -/
def sampleSession : RecordingSession :=
  { start_time := 0
    csv_writers := freshWriters
    stats := SessionStats.zero
    is_recording := true }

/-- A state with one active session for `"@a"` and a pending disconnect
confirmation whose task (registry id 0) is running. -/
def statePendingDisconnect : MonitorState :=
  { baseState 3 90 5 with
      active_recordings := [("@a", sampleSession)]
      pending_disconnects := [("@a", { timestamp := 0, taskId := 0 })]
      tasks := [(0, TaskStatus.running)]
      next_task_id := 1 }

/-- A state with one active session for `"@a"` and nothing pending. -/
def stateOneActive : MonitorState :=
  { baseState 3 90 5 with active_recordings := [("@a", sampleSession)] }

/-- An old configuration whose roster holds the single enabled streamer
key `"a"` (username `"@a"`). -/
def oldRosterConfig : Config :=
  { streamers :=
      [ ("a", { username := "@a", enabled := true, session_id := none
                tt_target_idc := none, tags := [], notes := "" }) ]
    settings := baseSettings 3 90 5 }

/-- The same roster with streamer `"a"` disabled (`enabled := false`)
rather than removed. -/
def disabledRosterConfig : Config :=
  { streamers :=
      [ ("a", { username := "@a", enabled := false, session_id := none
                tt_target_idc := none, tags := [], notes := "" }) ]
    settings := baseSettings 3 90 5 }

/-- A monitor state holding `oldRosterConfig` with an active session for
`"@a"`: the situation just before a configuration reload. -/
def stateBeforeReload : MonitorState :=
  { baseState 3 90 5 with
      config := oldRosterConfig
      active_recordings := [("@a", sampleSession)] }

/-! ## Lemmas about the association-list helpers -/

section AssocLemmas

variable {κ α : Type} [BEq κ] [LawfulBEq κ]

theorem hasKey_append (k : κ) (l l' : List (κ × α)) :
    hasKey k (l ++ l') = (hasKey k l || hasKey k l') := by
  induction l with
  | nil => simp [hasKey]
  | cons p l ih => simp [hasKey, ih, Bool.or_assoc]

theorem getKey_eq_none_of_hasKey_eq_false {k : κ} {l : List (κ × α)}
    (h : hasKey k l = false) : getKey k l = none := by
  induction l with
  | nil => rfl
  | cons p l ih =>
    simp only [hasKey, Bool.or_eq_false_iff] at h
    simp [getKey, h.1, ih h.2]

theorem exists_getKey_of_hasKey {k : κ} {l : List (κ × α)}
    (h : hasKey k l = true) : ∃ v, getKey k l = some v := by
  induction l with
  | nil => simp [hasKey] at h
  | cons p l ih =>
    cases hpk : (p.1 == k) with
    | true => exact ⟨p.2, by simp [getKey, hpk]⟩
    | false =>
      simp only [hasKey, hpk, Bool.false_or] at h
      obtain ⟨v, hv⟩ := ih h
      exact ⟨v, by simp [getKey, hpk, hv]⟩

theorem hasKey_eq_true_of_getKey {k : κ} {l : List (κ × α)} {v : α}
    (h : getKey k l = some v) : hasKey k l = true := by
  induction l with
  | nil => simp [getKey] at h
  | cons p l ih =>
    cases hpk : (p.1 == k) with
    | true => simp [hasKey, hpk]
    | false =>
      simp only [getKey, hpk, Bool.false_eq_true, if_false] at h
      simp [hasKey, hpk, ih h]

theorem getKey_append_of_hasKey_eq_false {k : κ} {l : List (κ × α)}
    (h : hasKey k l = false) (l' : List (κ × α)) :
    getKey k (l ++ l') = getKey k l' := by
  induction l with
  | nil => rfl
  | cons p l ih =>
    simp only [hasKey, Bool.or_eq_false_iff] at h
    simp [getKey, h.1, ih h.2]

theorem getKey_removeKey_self (k : κ) (l : List (κ × α)) :
    getKey k (removeKey k l) = none := by
  induction l with
  | nil => rfl
  | cons p l ih => cases hpk : (p.1 == k) <;> simp [removeKey, hpk, getKey, ih]

theorem hasKey_removeKey_self (k : κ) (l : List (κ × α)) :
    hasKey k (removeKey k l) = false := by
  induction l with
  | nil => rfl
  | cons p l ih => cases hpk : (p.1 == k) <;> simp [removeKey, hpk, hasKey, ih]

theorem getKey_removeKey_of_ne {k k' : κ} (h : k' ≠ k) (l : List (κ × α)) :
    getKey k' (removeKey k l) = getKey k' l := by
  induction l with
  | nil => rfl
  | cons p l ih =>
    cases hpk : (p.1 == k) with
    | true =>
      have hp : p.1 = k := eq_of_beq hpk
      have hne : (p.1 == k') = false := by
        rw [hp]
        exact beq_eq_false_iff_ne.mpr (fun e => h e.symm)
      simp [removeKey, hpk, getKey, hne, ih]
    | false => simp [removeKey, hpk, getKey, ih]

theorem getKey_removeKey_eq_none {k k' : κ} {l : List (κ × α)}
    (h : getKey k' l = none) : getKey k' (removeKey k l) = none := by
  induction l with
  | nil => rfl
  | cons p l ih =>
    cases hpk' : (p.1 == k') with
    | true => simp [getKey, hpk'] at h
    | false =>
      simp only [getKey, hpk', Bool.false_eq_true, if_false] at h
      cases hpk : (p.1 == k) <;> simp [removeKey, hpk, getKey, hpk', ih h]

theorem getKey_setKey_self (k : κ) (v : α) (l : List (κ × α)) :
    getKey k (setKey k v l) = some v := by
  induction l with
  | nil => simp [setKey, getKey]
  | cons p l ih => cases hpk : (p.1 == k) <;> simp [setKey, hpk, getKey, ih]

theorem removeKey_sublist (k : κ) (l : List (κ × α)) :
    (removeKey k l).Sublist l := by
  induction l with
  | nil => exact List.Sublist.refl []
  | cons p l ih =>
    cases hpk : (p.1 == k) with
    | true => rw [removeKey, if_pos hpk]; exact ih.cons p
    | false =>
      rw [removeKey, if_neg (by simp [hpk])]
      exact ih.cons₂ p

theorem length_removeKey_le (k : κ) (l : List (κ × α)) :
    (removeKey k l).length ≤ l.length :=
  (removeKey_sublist k l).length_le

theorem not_mem_keys_of_hasKey_eq_false {k : κ} {l : List (κ × α)}
    (h : hasKey k l = false) : k ∉ l.map Prod.fst := by
  induction l with
  | nil => simp
  | cons p l ih =>
    simp only [hasKey, Bool.or_eq_false_iff] at h
    simp only [List.map_cons, List.mem_cons, not_or]
    exact ⟨fun e => (beq_eq_false_iff_ne.mp h.1) e.symm, ih h.2⟩

theorem mem_keys_of_hasKey {k : κ} {l : List (κ × α)}
    (h : hasKey k l = true) : k ∈ l.map Prod.fst := by
  induction l with
  | nil => simp [hasKey] at h
  | cons p l ih =>
    cases hpk : (p.1 == k) with
    | true => exact List.mem_cons.mpr (Or.inl (eq_of_beq hpk).symm)
    | false =>
      simp only [hasKey, hpk, Bool.false_or] at h
      exact List.mem_cons.mpr (Or.inr (ih h))

theorem hasKey_eq_isSome_getKey (k : κ) (l : List (κ × α)) :
    hasKey k l = (getKey k l).isSome := by
  induction l with
  | nil => rfl
  | cons p l ih => cases hpk : (p.1 == k) <;> simp [hasKey, getKey, hpk, ih]

theorem keysNodup_removeKey (k : κ) {l : List (κ × α)} (h : keysNodup l) :
    keysNodup (removeKey k l) :=
  List.Nodup.sublist (List.Sublist.map Prod.fst (removeKey_sublist k l)) h

theorem keysNodup_append_single {l : List (κ × α)} {k : κ} {v : α}
    (h : keysNodup l) (hk : hasKey k l = false) : keysNodup (l ++ [(k, v)]) := by
  unfold keysNodup at h ⊢
  rw [List.map_append]
  rw [List.nodup_append]
  refine ⟨h, List.nodup_singleton k, ?_⟩
  intro a ha hb
  simp only [List.map_cons, List.map_nil, List.mem_singleton] at hb
  exact not_mem_keys_of_hasKey_eq_false hk (hb ▸ ha)

end AssocLemmas

theorem getKey_cancelTask_self (i : Nat) (ts : List (Nat × TaskStatus)) :
    getKey i (cancelTask i ts) =
      (getKey i ts).map (fun _ => TaskStatus.cancelled) := by
  induction ts with
  | nil => rfl
  | cons p ts ih =>
    show getKey i
        ((if p.1 == i then (p.1, TaskStatus.cancelled) else p) :: cancelTask i ts) = _
    cases hpk : (p.1 == i) <;> simp [hpk, getKey, ih]

/-! ## Step lemmas for the stability tracker -/

/-- First observation of an entity while the threshold is at least 2: the
state is created fresh (last action 600 seconds in the past), the live
counter starts at 1, and no signal fires. -/
theorem track_fresh_step_live (now : Int) (rec : Bool) (threshold cooldown : Nat)
    (hth : 2 ≤ threshold) :
    trackStreamStability none now true rec threshold cooldown =
      ({ recent_checks := [(now, true)]
         last_action_time := now - 600
         consecutive_live := 1
         consecutive_offline := 0
         last_status := some true }, false) := by
  unfold trackStreamStability updateCounters freshStability
  simp [show ¬(threshold ≤ 1) by omega]

/-- First observation of an entity with threshold at most 1 and a cooldown
within the 600-second initial allowance: the signal fires at once. -/
theorem track_fresh_step_fire (now : Int) (threshold cooldown : Nat)
    (hth : threshold ≤ 1) (hcd : (cooldown : Int) ≤ 600) :
    trackStreamStability none now true false threshold cooldown =
      ({ recent_checks := [(now, true)]
         last_action_time := now
         consecutive_live := 1
         consecutive_offline := 0
         last_status := some true }, true) := by
  have h6 : (cooldown : Int) ≤ now - (now - 600) := by omega
  unfold trackStreamStability updateCounters freshStability
  simp [hth, h6]
  omega

/-- A further live sample of an ongoing live run that stays below the
threshold: the counter increments, nothing fires. -/
theorem track_live_step_no_fire (s : StabilityState) (now : Int)
    (threshold cooldown : Nat) (hs : s.last_status = some true)
    (hlt : s.consecutive_live + 1 < threshold) :
    trackStreamStability (some s) now true false threshold cooldown =
      ({ recent_checks :=
            (s.recent_checks.filter (fun c => now - c.1 < 600)) ++ [(now, true)]
         last_action_time := s.last_action_time
         consecutive_live := s.consecutive_live + 1
         consecutive_offline := 0
         last_status := some true }, false) := by
  unfold trackStreamStability updateCounters
  simp [hs, show ¬(threshold ≤ s.consecutive_live + 1) by omega]

/-- A live sample reaching the threshold with the cooldown elapsed: the
signal fires and the last-action timestamp is updated to `now`. -/
theorem track_live_step_fire (s : StabilityState) (now : Int)
    (threshold cooldown : Nat) (hs : s.last_status = some true)
    (hge : threshold ≤ s.consecutive_live + 1)
    (hcd : (cooldown : Int) ≤ now - s.last_action_time) :
    trackStreamStability (some s) now true false threshold cooldown =
      ({ recent_checks :=
            (s.recent_checks.filter (fun c => now - c.1 < 600)) ++ [(now, true)]
         last_action_time := now
         consecutive_live := s.consecutive_live + 1
         consecutive_offline := 0
         last_status := some true }, true) := by
  unfold trackStreamStability updateCounters
  simp [hs, hge, hcd]

/-- A live sample for an entity that is already recording: the counter
still increments but the confirmation path is a no-op. -/
theorem track_live_step_recording (s : StabilityState) (now : Int)
    (threshold cooldown : Nat) (hs : s.last_status = some true) :
    trackStreamStability (some s) now true true threshold cooldown =
      ({ recent_checks :=
            (s.recent_checks.filter (fun c => now - c.1 < 600)) ++ [(now, true)]
         last_action_time := s.last_action_time
         consecutive_live := s.consecutive_live + 1
         consecutive_offline := 0
         last_status := some true }, false) := by
  unfold trackStreamStability updateCounters
  simp [hs]

/-- The unfolding of `trackRun` on a first sample. -/
theorem trackRun_cons (threshold cooldown : Nat) (prev : Option StabilityState)
    (s0 : Int × Bool) (rest : List (Int × Bool)) :
    trackRun threshold cooldown prev (s0 :: rest)
      = ((trackRun threshold cooldown
            (some (trackStreamStability prev s0.1 s0.2 false threshold cooldown).1)
            rest).1,
         (trackStreamStability prev s0.1 s0.2 false threshold cooldown).2
           :: (trackRun threshold cooldown
                (some (trackStreamStability prev s0.1 s0.2 false threshold cooldown).1)
                rest).2) := rfl

/-- One live run through the tracker in isolation: starting from a state
in a live run with every sample's time clearing the cooldown, the signal
fires exactly on the sample where the counter reaches the threshold. -/
theorem trackRun_live_fires (threshold cooldown : Nat) :
    ∀ (ts : List Int) (t0 : Int) (s : StabilityState),
    s.last_status = some true →
    ((cooldown : Int) ≤ t0 - s.last_action_time) →
    (∀ t ∈ ts, (cooldown : Int) ≤ t - s.last_action_time) →
    s.consecutive_live + 1 + ts.length = threshold →
    (trackRun threshold cooldown (some s)
        ((t0 :: ts).map (fun t => (t, true)))).2
      = List.replicate ts.length false ++ [true] := by
  intro ts
  induction ts with
  | nil =>
    intro t0 s hs hcd _ hlen
    rw [List.length_nil, Nat.add_zero] at hlen
    simp only [List.map_cons, List.map_nil, trackRun_cons]
    rw [track_live_step_fire s t0 threshold cooldown hs (by omega) hcd]
    simp [trackRun]
  | cons t1 ts ih =>
    intro t0 s hs hcd hall hlen
    rw [List.length_cons] at hlen
    have hstep := track_live_step_no_fire s t0 threshold cooldown hs (by omega)
    have hrec := ih t1
      { recent_checks :=
          (s.recent_checks.filter (fun c => t0 - c.1 < 600)) ++ [(t0, true)]
        last_action_time := s.last_action_time
        consecutive_live := s.consecutive_live + 1
        consecutive_offline := 0
        last_status := some true }
      rfl (hall t1 (List.mem_cons_self t1 ts))
      (fun t ht => hall t (List.mem_cons_of_mem t1 ht))
      (by dsimp only; omega)
    simp only [List.map_cons] at hrec ⊢
    rw [trackRun_cons]
    dsimp only
    rw [hstep]
    dsimp only
    rw [List.length_cons, List.replicate_succ, hrec, List.cons_append]

/-! ## Lemmas about the recording orchestrator -/

theorem startRecording_invariant (st : MonitorState) (u : String) (now : Int)
    (ok : Bool) (hinv : SessionInvariant st) :
    SessionInvariant (startRecording st u now ok).1 := by
  obtain ⟨hn, hc⟩ := hinv
  unfold startRecording
  split_ifs with h1 h2 h3
  · exact ⟨hn, hc⟩
  · exact ⟨hn, hc⟩
  · refine ⟨?_, ?_⟩
    · exact keysNodup_append_single hn (Bool.not_eq_true _ ▸ eq_false_of_ne_true h1)
    · simpa using Nat.succ_le_of_lt (Nat.lt_of_not_le h2)
  · exact ⟨hn, hc⟩

theorem stopRecording_invariant (st : MonitorState) (u : String)
    (reason : String) (hinv : SessionInvariant st) :
    SessionInvariant (stopRecording st u reason).1 := by
  obtain ⟨hn, hc⟩ := hinv
  unfold stopRecording
  cases hg : getKey u st.active_recordings with
  | none => exact ⟨hn, hc⟩
  | some sess =>
    cases hp : getKey u st.pending_disconnects <;>
      exact ⟨keysNodup_removeKey u hn,
        Nat.le_trans (length_removeKey_le u _) hc⟩

/-- `stop_recording` touches no session other than the one of the entity
it is called for. -/
theorem stopRecording_active_other {st : MonitorState} {u u' : String}
    (reason : String) (h : u' ≠ u) :
    getKey u' (stopRecording st u reason).1.active_recordings
      = getKey u' st.active_recordings := by
  unfold stopRecording
  cases hg : getKey u st.active_recordings with
  | none => rfl
  | some sess =>
    cases hp : getKey u st.pending_disconnects <;>
      simp [getKey_removeKey_of_ne h]

/-- `stop_recording` never adds a session. -/
theorem stopRecording_active_none {st : MonitorState} {u u' : String}
    (reason : String) (h : getKey u' st.active_recordings = none) :
    getKey u' (stopRecording st u reason).1.active_recordings = none := by
  unfold stopRecording
  cases hg : getKey u st.active_recordings with
  | none => exact h
  | some sess =>
    cases hp : getKey u st.pending_disconnects <;>
      simp [getKey_removeKey_eq_none h]

theorem stopRecording_hasKey_other {st : MonitorState} {u u' : String}
    (reason : String) (h : u' ≠ u) :
    hasKey u' (stopRecording st u reason).1.active_recordings
      = hasKey u' st.active_recordings := by
  rw [hasKey_eq_isSome_getKey, hasKey_eq_isSome_getKey,
    stopRecording_active_other reason h]

theorem stopRecording_logs_of_active {st : MonitorState} {u : String}
    (reason : String) {sess : RecordingSession}
    (h : getKey u st.active_recordings = some sess) :
    (stopRecording st u reason).2.1 = [LogEvent.recordingStopped u reason] := by
  unfold stopRecording
  rw [h]

theorem stopRecording_active_self_none {st : MonitorState} {u : String}
    (reason : String) {sess : RecordingSession}
    (h : getKey u st.active_recordings = some sess) :
    getKey u (stopRecording st u reason).1.active_recordings = none := by
  unfold stopRecording
  rw [h]
  cases hp : getKey u st.pending_disconnects <;> simp [getKey_removeKey_self]

/-! ## Step lemmas for the monitoring loop -/

theorem runPoll_nil (u : String) (st : MonitorState) :
    runPoll u st [] = (st, []) := rfl

theorem runPoll_cons (u : String) (st : MonitorState) (s0 : Int × Bool)
    (rest : List (Int × Bool)) :
    runPoll u st (s0 :: rest)
      = ((runPoll u (monitorProcessResult st s0.1 u s0.2 true).1 rest).1,
         (monitorProcessResult st s0.1 u s0.2 true).2.1
           :: (runPoll u (monitorProcessResult st s0.1 u s0.2 true).1 rest).2) := rfl

/-- A poll cycle whose tracker step does not fire only records the tracker
state. -/
theorem monitorProcessResult_no_fire {st : MonitorState} {now : Int}
    {u : String} {il ok : Bool} {s1 : StabilityState}
    (h : trackStreamStability (getKey u st.stream_stability) now il
          (hasKey u st.active_recordings) st.stability_threshold
          st.min_action_cooldown = (s1, false)) :
    monitorProcessResult st now u il ok
      = ({ st with stream_stability := setKey u s1 st.stream_stability },
         false, []) := by
  simp [monitorProcessResult, h]

/-- A poll cycle whose tracker step fires for a live, non-recording entity
starts a recording. -/
theorem monitorProcessResult_fire_start {st : MonitorState} {now : Int}
    {u : String} {ok : Bool} {s1 : StabilityState}
    (h : trackStreamStability (getKey u st.stream_stability) now true
          (hasKey u st.active_recordings) st.stability_threshold
          st.min_action_cooldown = (s1, true))
    (hrec : hasKey u st.active_recordings = false) :
    monitorProcessResult st now u true ok
      = ((startRecording
            { st with stream_stability := setKey u s1 st.stream_stability }
            u now ok).1,
         true,
         (startRecording
            { st with stream_stability := setKey u s1 st.stream_stability }
            u now ok).2) := by
  rw [hrec] at h
  simp [monitorProcessResult, h, hrec]

/-- Admission succeeds: for an entity with no session, below the cap, and
with the fallible middle part succeeding, `start_recording` registers the
session. -/
theorem startRecording_success {st : MonitorState} {u : String} {now : Int}
    (hnk : hasKey u st.active_recordings = false)
    (hcap : st.active_recordings.length
      < st.config.settings.max_concurrent_recordings) :
    startRecording st u now true
      = ({ st with
            active_recordings :=
              st.active_recordings ++
                [(u, { start_time := now, csv_writers := freshWriters
                       stats := SessionStats.zero, is_recording := true })] },
         [LogEvent.recordingStarted u]) := by
  unfold startRecording
  rw [if_neg (by simp [hnk]), if_neg (by omega), if_pos rfl]

/-! ## Lemmas about the configuration watcher's removal loop -/

theorem processRemoved_active_none (ks : List String) :
    ∀ (st : MonitorState) {u : String},
    getKey u st.active_recordings = none →
    getKey u (processRemoved st ks).1.active_recordings = none := by
  induction ks with
  | nil => intro st u h; exact h
  | cons k ks ih =>
    intro st u h
    unfold processRemoved
    split_ifs with hc
    · exact ih _ (stopRecording_active_none _ h)
    · exact ih _ h

theorem processRemoved_active_other (ks : List String) :
    ∀ (st : MonitorState) {u : String},
    (∀ k' ∈ ks, u ≠ "@" ++ k') →
    getKey u (processRemoved st ks).1.active_recordings
      = getKey u st.active_recordings := by
  induction ks with
  | nil => intro st u _; rfl
  | cons k ks ih =>
    intro st u h
    unfold processRemoved
    split_ifs with hc
    · rw [ih _ (fun k' hk' => h k' (List.mem_cons_of_mem _ hk')),
        stopRecording_active_other _ (h k (List.mem_cons_self k ks))]
    · exact ih _ (fun k' hk' => h k' (List.mem_cons_of_mem _ hk'))

theorem processRemoved_stops (ks : List String) :
    ∀ (st : MonitorState) {k : String}, k ∈ ks →
    hasKey ("@" ++ k) st.active_recordings = true →
    (getKey ("@" ++ k) (processRemoved st ks).1.active_recordings = none ∧
     LogEvent.recordingStopped ("@" ++ k) "removed_from_config"
       ∈ (processRemoved st ks).2) := by
  induction ks with
  | nil => intro st k hk; exact absurd hk (List.not_mem_nil k)
  | cons k0 ks ih =>
    intro st k hk hact
    obtain ⟨sess, hsess⟩ := exists_getKey_of_hasKey hact
    rcases List.mem_cons.mp hk with hkk | hk'
    · subst hkk
      unfold processRemoved
      rw [if_pos hact]
      constructor
      · exact processRemoved_active_none ks _
          (stopRecording_active_self_none _ hsess)
      · refine List.mem_append.mpr (Or.inl ?_)
        rw [stopRecording_logs_of_active _ hsess]
        exact List.mem_singleton.mpr rfl
    · unfold processRemoved
      split_ifs with hc
      · by_cases he : ("@" ++ k) = ("@" ++ k0)
        · constructor
          · refine processRemoved_active_none ks _ ?_
            rw [he]
            exact stopRecording_active_self_none _
              (he ▸ hsess : getKey ("@" ++ k0) st.active_recordings = some sess)
          · refine List.mem_append.mpr (Or.inl ?_)
            obtain ⟨sess0, hsess0⟩ := exists_getKey_of_hasKey hc
            rw [stopRecording_logs_of_active _ hsess0, he]
            exact List.mem_singleton.mpr rfl
        · have hact' :
              hasKey ("@" ++ k)
                (stopRecording st ("@" ++ k0) "removed_from_config").1.active_recordings
                = true := by
            rw [stopRecording_hasKey_other _ he]
            exact hact
          have hres := ih _ hk' hact'
          exact ⟨hres.1, List.mem_append.mpr (Or.inr hres.2)⟩
      · exact ih _ hk' hact

/-! ## Claim theorems -/

/-- C7: For every entity and after every processed sample, the stability
counters `consecutive_live` and `consecutive_offline` are never
simultaneously non-zero: each sample increments (or resets to 1, on a flip
in the observed value) exactly one counter and sets the other to zero. -/
theorem counters_never_both_nonzero (prev : Option StabilityState) (now : Int)
    (is_live current_recording : Bool) (threshold cooldown : Nat) :
    ((trackStreamStability prev now is_live current_recording threshold cooldown).1.consecutive_live = 0 ∨
     (trackStreamStability prev now is_live current_recording threshold cooldown).1.consecutive_offline = 0) ∧
    (trackStreamStability prev now is_live current_recording threshold cooldown).1.consecutive_live =
      (if is_live then
        (if (prev.getD (freshStability now)).last_status = some true then
          (prev.getD (freshStability now)).consecutive_live + 1
         else 1)
       else 0) ∧
    (trackStreamStability prev now is_live current_recording threshold cooldown).1.consecutive_offline =
      (if is_live then 0
       else
        (if (prev.getD (freshStability now)).last_status = some false then
          (prev.getD (freshStability now)).consecutive_offline + 1
         else 1)) := by
  unfold trackStreamStability updateCounters
  cases is_live <;> cases current_recording <;> simp <;> split_ifs <;> simp_all

/-- C2: A polled not-live observation never terminates an active recording
session: an offline sample makes the stability tracker return no signal in
every state, the polling path of the monitoring loop leaves the active
recordings untouched and logs nothing on an offline sample, and the
polling path never emits a stopped-recording record for any sample. -/
theorem polled_offline_never_stops (prev : Option StabilityState) (now : Int)
    (rec : Bool) (threshold cooldown : Nat) (st : MonitorState) (u : String)
    (il ok : Bool) :
    (trackStreamStability prev now false rec threshold cooldown).2 = false ∧
    (monitorProcessResult st now u false ok).1.active_recordings
        = st.active_recordings ∧
    (monitorProcessResult st now u false ok).2.2 = [] ∧
    ((monitorProcessResult st now u il ok).2.2).all
        (fun e => !(LogEvent.isStop e)) = true := by
  refine ⟨?_, ?_, ?_, ?_⟩
  · simp [trackStreamStability]
  · simp [monitorProcessResult, trackStreamStability]
  · simp [monitorProcessResult, trackStreamStability]
  · simp only [monitorProcessResult, startRecording]
    split_ifs <;> simp [LogEvent.isStop]

/-- C8: the code does not satisfy the claim — it crashes instead.  On a
missing configuration file, `load_config` does write the documented
default to disk, but the `self.logger.info` call that follows (line 420)
raises `AttributeError`, because `__init__` runs `load_config` (line 27)
before assigning `self.logger` (line 64): no configuration is returned,
monitor construction aborts, and `main` exits with code 1 instead of
proceeding with the default.  At reload time, with the logger assigned,
the same branch does return the default — the behaviour the claim (and
the code's own `return default_config`) intends. -/
theorem missing_config_crashes_init :
    (loadConfig false ConfigSource.missing).2 = ConfigSource.valid defaultConfig ∧
    (loadConfig false ConfigSource.missing).1
      = Except.error ConfigError.loggerNotAssigned ∧
    (initMonitor ConfigSource.missing none).1
      = Except.error ConfigError.loggerNotAssigned ∧
    mainInitExit ConfigSource.missing none = some 1 ∧
    (loadConfig true ConfigSource.missing).1 = Except.ok defaultConfig :=
  ⟨rfl, rfl, rfl, rfl, rfl⟩

/-- C3: starting and stopping recordings, and the polling step that can
start one, preserve the session-accounting invariant (at most one session
per entity, total sessions within the configured cap); a start for an
entity that already has a session, or while the cap is reached, is
rejected with the corresponding log record and leaves the state — in
particular every existing active session — untouched. -/
theorem session_accounting_invariant (st : MonitorState) (u : String)
    (now : Int) (ok : Bool) (reason : String) (il : Bool)
    (hinv : SessionInvariant st) :
    SessionInvariant (startRecording st u now ok).1 ∧
    SessionInvariant (stopRecording st u reason).1 ∧
    SessionInvariant (monitorProcessResult st now u il ok).1 ∧
    (hasKey u st.active_recordings = true →
      startRecording st u now ok = (st, [LogEvent.warnAlreadyRecording u])) ∧
    (hasKey u st.active_recordings = false →
      st.config.settings.max_concurrent_recordings ≤ st.active_recordings.length →
      startRecording st u now ok = (st, [LogEvent.admissionFailure u])) := by
  refine ⟨startRecording_invariant st u now ok hinv,
    stopRecording_invariant st u reason hinv, ?_, ?_, ?_⟩
  · simp only [monitorProcessResult]
    split_ifs
    · exact startRecording_invariant _ u now ok hinv
    · exact hinv
    · exact hinv
  · intro h
    unfold startRecording
    rw [if_pos h]
  · intro h hcap
    unfold startRecording
    rw [if_neg (by simp [h]), if_pos hcap]

/-- Concrete run of `session_accounting_invariant`: a state at cap 1 with
one active session rejects a second start for a different entity without
changing the state. -/
theorem session_accounting_invariant_witness :
    startRecording
        { baseState 3 90 1 with active_recordings := [("@a", sampleSession)] }
        "@b" 0 true
      = ({ baseState 3 90 1 with active_recordings := [("@a", sampleSession)] },
         [LogEvent.admissionFailure "@b"]) :=
  (session_accounting_invariant
      { baseState 3 90 1 with active_recordings := [("@a", sampleSession)] }
      "@b" 0 true "r" true
      ⟨by simp [keysNodup, baseState], by simp [baseState, baseSettings]⟩).2.2.2.2
    (by decide) (by decide)

/-- C9: `stop_recording` is idempotent.  A call for an entity with no
active session only logs a warning and changes nothing.  A call for an
entity with a session performs exactly one teardown: the session's sink
handles are the ones closed (each at most once — `closeHandle` leaves an
already-closed handle alone, and the cleared writers map means a second
call returns before touching any handle), exactly one stopped-recording
record is emitted, the session is removed from the active set, and a
second sequential call is a pure no-op with a warning. -/
theorem stop_recording_idempotent (st : MonitorState) (u : String)
    (r1 r2 : String) (sess : RecordingSession)
    (hac : getKey u st.active_recordings = some sess) :
    (stopRecording st u r1).2.2 = closeWriters sess.csv_writers ∧
    getKey u (stopRecording st u r1).1.active_recordings = none ∧
    (stopRecording st u r1).2.1 = [LogEvent.recordingStopped u r1] ∧
    stopRecording (stopRecording st u r1).1 u r2
      = ((stopRecording st u r1).1, [LogEvent.warnNoActiveRecording u], []) ∧
    (∀ st' : MonitorState, getKey u st'.active_recordings = none →
      stopRecording st' u r2 = (st', [LogEvent.warnNoActiveRecording u], [])) ∧
    (∀ h : FileHandle, (closeHandle h).closed = true ∧
      (closeHandle h).closeCount
        = (if h.closed then h.closeCount else h.closeCount + 1)) := by
  have hnone : ∀ st' : MonitorState, getKey u st'.active_recordings = none →
      stopRecording st' u r2 = (st', [LogEvent.warnNoActiveRecording u], []) := by
    intro st' h
    unfold stopRecording
    rw [h]
  have key : getKey u (stopRecording st u r1).1.active_recordings = none := by
    unfold stopRecording
    rw [hac]
    cases hp : getKey u st.pending_disconnects <;> simp [getKey_removeKey_self]
  refine ⟨?_, key, ?_, hnone _ key, hnone, ?_⟩
  · unfold stopRecording
    rw [hac]
  · unfold stopRecording
    rw [hac]
  · intro h
    unfold closeHandle
    split_ifs with hc <;> simp [hc]

/-- Concrete run of `stop_recording_idempotent`: stopping the one active
session of `stateOneActive` removes it, and the second stop is a no-op. -/
theorem stop_recording_idempotent_witness :
    getKey "@a" (stopRecording stateOneActive "@a" "shutdown").1.active_recordings
        = none ∧
    stopRecording (stopRecording stateOneActive "@a" "shutdown").1 "@a" "manual"
      = ((stopRecording stateOneActive "@a" "shutdown").1,
         [LogEvent.warnNoActiveRecording "@a"], []) :=
  ⟨(stop_recording_idempotent stateOneActive "@a" "shutdown" "manual" sampleSession rfl).2.1,
   (stop_recording_idempotent stateOneActive "@a" "shutdown" "manual" sampleSession rfl).2.2.2.1⟩

/-- C4: after a disconnect signal for an entity with an active session,
the confirmation fired at the end of the grace period decides by a fresh
probe: if the entity is live again, the session is kept, the pending
record is cleared, and no stop record is emitted; if it is still not live,
exactly one stop with reason `"disconnect_confirmed"` is issued, and the
pending record is cleared as well. -/
theorem disconnect_grace_period (st : MonitorState) (u : String) (now : Int)
    (hact : hasKey u st.active_recordings = true)
    (hpend : hasKey u st.pending_disconnects = false) :
    ((handleDisconnectConfirmation (onDisconnect st now u).1 u (some true)).1.active_recordings
        = st.active_recordings) ∧
    getKey u (handleDisconnectConfirmation (onDisconnect st now u).1 u
        (some true)).1.pending_disconnects = none ∧
    ((handleDisconnectConfirmation (onDisconnect st now u).1 u (some true)).2
        = [LogEvent.backOnline u]) ∧
    getKey u (handleDisconnectConfirmation (onDisconnect st now u).1 u
        (some false)).1.active_recordings = none ∧
    ((handleDisconnectConfirmation (onDisconnect st now u).1 u (some false)).2
        = [LogEvent.recordingStopped u "disconnect_confirmed"]) ∧
    getKey u (handleDisconnectConfirmation (onDisconnect st now u).1 u
        (some false)).1.pending_disconnects = none := by
  obtain ⟨sess, hsess⟩ := exists_getKey_of_hasKey hact
  have hstep : (onDisconnect st now u).1 =
      { st with
          pending_disconnects :=
            st.pending_disconnects ++
              [(u, { timestamp := now, taskId := st.next_task_id })]
          tasks := st.tasks ++ [(st.next_task_id, TaskStatus.running)]
          next_task_id := st.next_task_id + 1 } := by
    unfold onDisconnect
    rw [if_neg (by simp [hpend])]
  rw [hstep]
  have hkP : hasKey u
      (st.pending_disconnects ++
        [(u, (⟨now, st.next_task_id⟩ : PendingDisconnect))]) = true := by
    rw [hasKey_append]
    simp [hpend, hasKey]
  have gkP : getKey u
      (st.pending_disconnects ++
        [(u, (⟨now, st.next_task_id⟩ : PendingDisconnect))]) =
      some ⟨now, st.next_task_id⟩ := by
    rw [getKey_append_of_hasKey_eq_false hpend]
    simp [getKey]
  refine ⟨?_, ?_, ?_, ?_, ?_, ?_⟩ <;>
    simp [handleDisconnectConfirmation, stopRecording, hkP, gkP, hact, hsess,
      hasKey_removeKey_self, getKey_removeKey_self]

/-- Concrete run of `disconnect_grace_period`: for the one active session
of `stateOneActive`, a still-offline probe at the end of the grace period
removes the session, and a live probe keeps it. -/
theorem disconnect_grace_period_witness :
    getKey "@a" (handleDisconnectConfirmation (onDisconnect stateOneActive 100 "@a").1
        "@a" (some false)).1.active_recordings = none ∧
    ((handleDisconnectConfirmation (onDisconnect stateOneActive 100 "@a").1
        "@a" (some true)).1.active_recordings = stateOneActive.active_recordings) :=
  ⟨(disconnect_grace_period stateOneActive "@a" 100 (by decide) (by decide)).2.2.2.1,
   (disconnect_grace_period stateOneActive "@a" 100 (by decide) (by decide)).1⟩

/-- C5 counterexample: in a state with a pending disconnect confirmation
(task 0 running) and an active session for `"@a"`, the authoritative
end-of-broadcast handler removes the pending record and stops the session,
but the task registry still holds task 0 as `running` — `cancel()` is
never called on the task in the end-of-broadcast path, because the handler
deletes the record before `stop_recording` (the only place that cancels)
can find it. -/
theorem live_end_leaves_task_running :
    (onLiveEnd statePendingDisconnect "@a").1.tasks = [(0, TaskStatus.running)] ∧
    getKey "@a" (onLiveEnd statePendingDisconnect "@a").1.pending_disconnects
      = none ∧
    getKey "@a" (onLiveEnd statePendingDisconnect "@a").1.active_recordings
      = none := by
  decide

/-- C5 (amended): a pending disconnect-confirmation task is explicitly
cancelled — `cancel()` is called on the task — when the session is stopped
by `stop_recording` while the pending record is still present (a stop for
any reason other than end-of-broadcast); on an authoritative
end-of-broadcast signal the pending record is removed without touching the
task (which later wakes and finds nothing to do), and the session is
stopped immediately. -/
theorem pending_cancellation_on_stop (st : MonitorState) (u reason : String)
    (pd : PendingDisconnect) (sess : RecordingSession)
    (hpend : getKey u st.pending_disconnects = some pd)
    (hact : getKey u st.active_recordings = some sess) :
    (getKey pd.taskId (stopRecording st u reason).1.tasks
      = (getKey pd.taskId st.tasks).map (fun _ => TaskStatus.cancelled)) ∧
    getKey u (stopRecording st u reason).1.pending_disconnects = none ∧
    (onLiveEnd st u).1.tasks = st.tasks ∧
    getKey u (onLiveEnd st u).1.pending_disconnects = none ∧
    getKey u (onLiveEnd st u).1.active_recordings = none := by
  have hk : hasKey u st.pending_disconnects = true := hasKey_eq_true_of_getKey hpend
  refine ⟨?_, ?_, ?_, ?_, ?_⟩
  · simp [stopRecording, hact, hpend, getKey_cancelTask_self]
  · simp [stopRecording, hact, hpend, getKey_removeKey_self]
  · simp [onLiveEnd, stopRecording, hk, hact, getKey_removeKey_self]
  · simp [onLiveEnd, stopRecording, hk, hact, getKey_removeKey_self]
  · simp [onLiveEnd, stopRecording, hk, hact, getKey_removeKey_self]

/-- Concrete run of `pending_cancellation_on_stop` on
`statePendingDisconnect`: a plain stop cancels task 0, while the
end-of-broadcast handler leaves the task registry untouched. -/
theorem pending_cancellation_on_stop_witness :
    (getKey (0 : Nat) (stopRecording statePendingDisconnect "@a" "manual").1.tasks
      = (getKey (0 : Nat) statePendingDisconnect.tasks).map
          (fun _ => TaskStatus.cancelled)) ∧
    (onLiveEnd statePendingDisconnect "@a").1.tasks = statePendingDisconnect.tasks :=
  ⟨(pending_cancellation_on_stop statePendingDisconnect "@a" "manual"
      ⟨0, 0⟩ sampleSession rfl rfl).1,
   (pending_cancellation_on_stop statePendingDisconnect "@a" "manual"
      ⟨0, 0⟩ sampleSession rfl rfl).2.2.1⟩

/-- C6 counterexample: streamer key `"a"` stays in the roster across the
reload but its enabled flag flips to `false`, while `"@a"` has an active
session.  The reload only logs the status change: the session is still
active afterwards and no stop record is emitted, contradicting the claim
that entities whose enabled flag became false receive a stop with reason
`"removed_from_config"`. -/
theorem disabled_streamer_not_stopped :
    getKey "@a"
        (checkConfigChanges stateBeforeReload disabledRosterConfig).1.active_recordings
      = some sampleSession ∧
    (checkConfigChanges stateBeforeReload disabledRosterConfig).2
      = [LogEvent.statusChanged "a" false] := by
  decide

/-- C6 (amended): on a configuration reload, every streamer key removed
from the roster whose username `"@" ++ key` has an active recording
session receives a stop with reason `"removed_from_config"` and its
session is removed; sessions of usernames not of that form for any removed
key are untouched (in particular, a streamer that merely became disabled
keeps its session and is only logged as a status change). -/
theorem config_reload_stops_removed (st : MonitorState) (newConfig : Config)
    (k : String)
    (hold : hasKey k st.config.streamers = true)
    (hnew : hasKey k newConfig.streamers = false)
    (hact : hasKey ("@" ++ k) st.active_recordings = true) :
    getKey ("@" ++ k)
        (checkConfigChanges st newConfig).1.active_recordings = none ∧
    LogEvent.recordingStopped ("@" ++ k) "removed_from_config"
      ∈ (checkConfigChanges st newConfig).2 ∧
    (∀ u : String,
      (∀ k' ∈ (st.config.streamers.map Prod.fst).filter
          (fun k2 => !(hasKey k2 newConfig.streamers)), u ≠ "@" ++ k') →
      getKey u (checkConfigChanges st newConfig).1.active_recordings
        = getKey u st.active_recordings) := by
  have hkmem : k ∈ (st.config.streamers.map Prod.fst).filter
      (fun k2 => !(hasKey k2 newConfig.streamers)) :=
    List.mem_filter.mpr ⟨mem_keys_of_hasKey hold, by simp [hnew]⟩
  rcases hg : st.global_session_id with _ | sid <;>
    simp only [checkConfigChanges, hg] <;>
    exact ⟨(processRemoved_stops _ _ (by exact hkmem) (by exact hact)).1,
      List.mem_append.mpr
        (Or.inl (processRemoved_stops _ _ (by exact hkmem) (by exact hact)).2),
      fun u hu => processRemoved_active_other _ _ (by exact hu)⟩

/-- Concrete run of `config_reload_stops_removed`: reloading
`stateBeforeReload` with an empty roster stops the active session of
`"@a"` with reason `"removed_from_config"`. -/
theorem config_reload_stops_removed_witness :
    getKey "@a"
        (checkConfigChanges stateBeforeReload
          { streamers := [], settings := baseSettings 3 90 5 }).1.active_recordings
      = none ∧
    LogEvent.recordingStopped "@a" "removed_from_config"
      ∈ (checkConfigChanges stateBeforeReload
          { streamers := [], settings := baseSettings 3 90 5 }).2 :=
  ⟨(config_reload_stops_removed stateBeforeReload
      { streamers := [], settings := baseSettings 3 90 5 } "a"
      (by decide) (by decide) (by decide)).1,
   (config_reload_stops_removed stateBeforeReload
      { streamers := [], settings := baseSettings 3 90 5 } "a"
      (by decide) (by decide) (by decide)).2.1⟩

/-- C10: an entity observed for the first time has its last-action
timestamp initialized 10 minutes (600 seconds) in the past, so for any
cooldown of at most 600 seconds the cooldown precondition never blocks the
first LIVE confirmation: feeding a fresh entity exactly `threshold`
consecutive live samples (in chronological order) fires the confirmed-live
signal on the sample reaching the threshold, with no cooldown delay. -/
theorem fresh_entity_first_confirmation_unblocked (threshold cooldown : Nat)
    (t0 : Int) (ts : List Int)
    (hth : 1 ≤ threshold)
    (hcd : cooldown ≤ 600)
    (hts : ∀ t ∈ ts, t0 ≤ t)
    (hlen : 1 + ts.length = threshold) :
    (freshStability t0).last_action_time = t0 - 600 ∧
    (trackRun threshold cooldown none ((t0 :: ts).map (fun t => (t, true)))).2
      = List.replicate (threshold - 1) false ++ [true] := by
  refine ⟨rfl, ?_⟩
  have hcdI : (cooldown : Int) ≤ 600 := by exact_mod_cast hcd
  cases ts with
  | nil =>
    rw [List.length_nil] at hlen
    simp only [List.map_cons, List.map_nil, trackRun_cons]
    rw [track_fresh_step_fire t0 threshold cooldown (by omega) hcdI]
    simp [trackRun, show threshold - 1 = 0 from by omega]
  | cons t1 ts1 =>
    rw [List.length_cons] at hlen
    have h2 : 2 ≤ threshold := by omega
    simp only [List.map_cons]
    rw [trackRun_cons]
    dsimp only
    rw [track_fresh_step_live t0 false threshold cooldown h2]
    dsimp only
    have hrec := trackRun_live_fires threshold cooldown ts1 t1
      { recent_checks := [(t0, true)]
        last_action_time := t0 - 600
        consecutive_live := 1
        consecutive_offline := 0
        last_status := some true }
      rfl
      (by dsimp only
          have h1 := hts t1 (List.mem_cons_self t1 ts1)
          omega)
      (fun t ht => by
        dsimp only
        have h1 := hts t (List.mem_cons_of_mem t1 ht)
        omega)
      (by dsimp only; omega)
    simp only [List.map_cons] at hrec
    rw [hrec, show threshold - 1 = ts1.length + 1 from by omega,
      List.replicate_succ, List.cons_append]

/-- Concrete run of `fresh_entity_first_confirmation_unblocked`: threshold
3, the maximal cooldown of 600 seconds, samples at 0, 5 and 10 seconds —
the signal fires on the third sample despite the cooldown being far longer
than the elapsed 10 seconds. -/
theorem fresh_entity_first_confirmation_unblocked_witness :
    (trackRun 3 600 none
        (([0, 5, 10] : List Int).map (fun t => (t, true)))).2
      = List.replicate 2 false ++ [true] :=
  (fresh_entity_first_confirmation_unblocked 3 600 0 [5, 10] (by decide)
    (by decide) (by decide) (by decide)).2

/-- C1: for an entity that is not currently recording (a fresh monitor
with stability threshold 3, cooldown 90 seconds and a free recording
slot), five consecutive live samples of one uninterrupted live run, in
chronological order, yield exactly one confirmed-live signal: it fires on
the third sample — the one where `consecutive_live` first reaches the
threshold, with the cooldown elapsed — updates the last-action timestamp
to that sample's time, and does not fire again on the two remaining
identical samples of the run (the recording started on the signal makes
the confirmation path a no-op).  The `start_recording` task spawned on the
signal is modelled as registering the session before the next poll cycle
processes the entity. -/
theorem live_run_single_confirmation (u : String) (cap : Nat)
    (t1 t2 t3 t4 t5 : Int) (hcap : 1 ≤ cap)
    (h12 : t1 ≤ t2) (h23 : t2 ≤ t3) (h34 : t3 ≤ t4) (h45 : t4 ≤ t5) :
    (runPoll u (baseState 3 90 cap)
        [(t1, true), (t2, true), (t3, true), (t4, true), (t5, true)]).2
      = [false, false, true, false, false] ∧
    ((getKey u (runPoll u (baseState 3 90 cap)
        [(t1, true), (t2, true), (t3, true), (t4, true), (t5, true)]).1.stream_stability).map
          StabilityState.last_action_time = some t3) ∧
    hasKey u (runPoll u (baseState 3 90 cap)
        [(t1, true), (t2, true), (t3, true), (t4, true), (t5, true)]).1.active_recordings
      = true := by
  set st0 := baseState 3 90 cap with hst0
  set s1 : StabilityState :=
    { recent_checks := [(t1, true)], last_action_time := t1 - 600
      consecutive_live := 1, consecutive_offline := 0
      last_status := some true } with hs1
  set st1 : MonitorState :=
    { st0 with stream_stability := setKey u s1 st0.stream_stability } with hst1
  have htr1 : trackStreamStability (getKey u st0.stream_stability) t1 true
      (hasKey u st0.active_recordings) st0.stability_threshold
      st0.min_action_cooldown = (s1, false) :=
    track_fresh_step_live t1 false 3 90 (by omega)
  have hm1 : monitorProcessResult st0 t1 u true true = (st1, false, []) :=
    monitorProcessResult_no_fire htr1
  have hg1 : getKey u st1.stream_stability = some s1 :=
    getKey_setKey_self u s1 st0.stream_stability
  set s2 : StabilityState :=
    { recent_checks :=
        s1.recent_checks.filter (fun c => t2 - c.1 < 600) ++ [(t2, true)]
      last_action_time := t1 - 600
      consecutive_live := 2, consecutive_offline := 0
      last_status := some true } with hs2
  set st2 : MonitorState :=
    { st1 with stream_stability := setKey u s2 st1.stream_stability } with hst2
  have htr2 : trackStreamStability (getKey u st1.stream_stability) t2 true
      (hasKey u st1.active_recordings) st1.stability_threshold
      st1.min_action_cooldown = (s2, false) := by
    rw [hg1]
    exact track_live_step_no_fire s1 t2 3 90 rfl (by simp [hs1])
  have hm2 : monitorProcessResult st1 t2 u true true = (st2, false, []) :=
    monitorProcessResult_no_fire htr2
  have hg2 : getKey u st2.stream_stability = some s2 :=
    getKey_setKey_self u s2 st1.stream_stability
  set s3 : StabilityState :=
    { recent_checks :=
        s2.recent_checks.filter (fun c => t3 - c.1 < 600) ++ [(t3, true)]
      last_action_time := t3
      consecutive_live := 3, consecutive_offline := 0
      last_status := some true } with hs3
  have htr3 : trackStreamStability (getKey u st2.stream_stability) t3 true
      (hasKey u st2.active_recordings) st2.stability_threshold
      st2.min_action_cooldown = (s3, true) := by
    rw [hg2]
    exact track_live_step_fire s2 t3 3 90 rfl (by simp [hs2])
      (by simp [hs2]; omega)
  have hrec2 : hasKey u st2.active_recordings = false := rfl
  set sess3 : RecordingSession :=
    { start_time := t3, csv_writers := freshWriters
      stats := SessionStats.zero, is_recording := true } with hsess3
  set stH : MonitorState :=
    { st2 with stream_stability := setKey u s3 st2.stream_stability } with hstH
  set st3 : MonitorState :=
    { stH with
        active_recordings := stH.active_recordings ++ [(u, sess3)] } with hst3
  have hm3 : monitorProcessResult st2 t3 u true true
      = (st3, true, [LogEvent.recordingStarted u]) := by
    rw [monitorProcessResult_fire_start htr3 hrec2,
      startRecording_success (by exact rfl) (by exact hcap)]
  have hg3 : getKey u st3.stream_stability = some s3 :=
    getKey_setKey_self u s3 st2.stream_stability
  have hact3 : hasKey u st3.active_recordings = true := by
    have h : st3.active_recordings = [(u, sess3)] := rfl
    rw [h]
    simp [hasKey]
  set s4 : StabilityState :=
    { recent_checks :=
        s3.recent_checks.filter (fun c => t4 - c.1 < 600) ++ [(t4, true)]
      last_action_time := t3
      consecutive_live := 4, consecutive_offline := 0
      last_status := some true } with hs4
  set st4 : MonitorState :=
    { st3 with stream_stability := setKey u s4 st3.stream_stability } with hst4
  have htr4 : trackStreamStability (getKey u st3.stream_stability) t4 true
      (hasKey u st3.active_recordings) st3.stability_threshold
      st3.min_action_cooldown = (s4, false) := by
    rw [hg3, hact3]
    exact track_live_step_recording s3 t4 3 90 rfl
  have hm4 : monitorProcessResult st3 t4 u true true = (st4, false, []) :=
    monitorProcessResult_no_fire htr4
  have hg4 : getKey u st4.stream_stability = some s4 :=
    getKey_setKey_self u s4 st3.stream_stability
  have hact4 : hasKey u st4.active_recordings = true := hact3
  set s5 : StabilityState :=
    { recent_checks :=
        s4.recent_checks.filter (fun c => t5 - c.1 < 600) ++ [(t5, true)]
      last_action_time := t3
      consecutive_live := 5, consecutive_offline := 0
      last_status := some true } with hs5
  set st5 : MonitorState :=
    { st4 with stream_stability := setKey u s5 st4.stream_stability } with hst5
  have htr5 : trackStreamStability (getKey u st4.stream_stability) t5 true
      (hasKey u st4.active_recordings) st4.stability_threshold
      st4.min_action_cooldown = (s5, false) := by
    rw [hg4, hact4]
    exact track_live_step_recording s4 t5 3 90 rfl
  have hm5 : monitorProcessResult st4 t5 u true true = (st5, false, []) :=
    monitorProcessResult_no_fire htr5
  have hrun : runPoll u st0 [(t1, true), (t2, true), (t3, true), (t4, true), (t5, true)]
      = (st5, [false, false, true, false, false]) := by
    simp only [runPoll_cons, runPoll_nil, hm1, hm2, hm3, hm4, hm5]
  refine ⟨by rw [hrun], ?_, ?_⟩
  · rw [hrun]
    simp [hst5, hs5, getKey_setKey_self]
  · rw [hrun]
    exact hact4

/-- Concrete run of `live_run_single_confirmation`: samples at the default
60-second poll interval. -/
theorem live_run_single_confirmation_witness :
    (runPoll "x" (baseState 3 90 1)
        [((0 : Int), true), (60, true), (120, true), (180, true), (240, true)]).2
      = [false, false, true, false, false] :=
  (live_run_single_confirmation "x" 1 0 60 120 180 240 (by decide) (by decide)
    (by decide) (by decide) (by decide)).1

end DMI
